import Mathlib

/-!
Verification of the CVLCore frame-processing pipeline.

The Rust sources are shallowly embedded: pure functions become Lean
functions over `ℕ`, `ℤ` and `ℚ`; machine integers carry explicit
wrap-arounds where overflow can matter; Rust panics (`unwrap` on `None`
or `Err`, out-of-range `Vec::remove`) are modelled by `Option`, with
`none` standing for a panic; fallible operations return `Except`.

IEEE-754 binary32 (`f32`) arithmetic is modelled exactly over `ℚ`:
every `f32` value is the rational it denotes, and each operation is the
exact rational result rounded to the nearest representable value with
ties to even (`FP32.round`), which is the IEEE default rounding used by
Rust. The model covers the normal range, which is ample for every value
occurring in the statements below; subnormals, overflow and NaN are not
modelled.

External OpenCV primitives that the claims do not depend on numerically
(colour conversion, the Canny detector) are parameters of the chain
stages that call them; primitives the claims do depend on (absdiff,
find_non_zero, count_non_zero, roi, zeros) are modelled concretely on a
row-major pixel grid.
-/

/-! ## Exact binary32 model over ℚ -/

/-- Fuel-bounded floor of the base-2 logarithm. The fuel 128 makes it
correct for every `n < 2 ^ 128`, far beyond any value reachable in this
development. -/
def log2Fuel : Nat → Nat → Nat
  | 0, _ => 0
  | f + 1, n => if 2 ≤ n then log2Fuel f (n / 2) + 1 else 0

/-- Floor of the base-2 logarithm of a natural number (0 for 0). -/
def natLog2 (n : Nat) : Nat := log2Fuel 128 n

/-- Fuel-bounded Newton iteration for the integer square root, started
from a guess known to be at least the root. -/
def isqrtAux : Nat → Nat → Nat → Nat
  | 0, _, g => g
  | f + 1, n, g =>
    let next := (g + n / g) / 2
    if next < g then isqrtAux f n next else g

/-- Integer square root (floor). The fuel 256 suffices for every
`n < 2 ^ 200`, far beyond any value reachable in this development. -/
def isqrt (n : Nat) : Nat := if n ≤ 1 then n else isqrtAux 256 n n

/-- Power of two as a rational, for a possibly negative exponent. -/
def pow2 (e : Int) : ℚ :=
  match e with
  | .ofNat n => ((2 ^ n : Nat) : ℚ)
  | .negSucc n => ((2 ^ (n + 1) : Nat) : ℚ)⁻¹

/-- Round a rational to the nearest integer, ties to even. -/
def roundHalfEven (q : ℚ) : Int :=
  let f : Int := Int.fdiv q.num (q.den : Int)
  let r : ℚ := q - (f : ℚ)
  if r < 1 / 2 then f
  else if 1 / 2 < r then f + 1
  else if f % 2 = 0 then f else f + 1

/-- Floor of the base-2 logarithm of a positive rational (junk value 0
on nonpositive input, which no caller uses). -/
def exp2Floor (x : ℚ) : Int :=
  if 1 ≤ x then (natLog2 (Int.toNat (Int.fdiv x.num (x.den : Int))) : Int)
  else
    let a := Int.toNat x.num
    let b := x.den
    let c := (b + a - 1) / a
    let k := natLog2 c
    if 1 ≤ x * ((2 ^ k : Nat) : ℚ) then -(k : Int) else -(k : Int) - 1

/-- Round an exact rational to the nearest IEEE-754 binary32 value
(ties to even), viewed as a rational. Models Rust `f32` rounding of an
exact result in the normal range. -/
def FP32.round (q : ℚ) : ℚ :=
  if q = 0 then 0
  else
    let x := |q|
    let e := exp2Floor x
    let m := roundHalfEven (x * pow2 (23 - e))
    let v := (m : ℚ) * pow2 (e - 23)
    if q < 0 then -v else v

/-- Correctly rounded binary32 square root of a nonnegative rational:
the mantissa is the nearest integer (ties to even) to the exact root
scaled into the binade `[2 ^ 23, 2 ^ 24)`, decided by integer
comparisons on squares. Models Rust `f32::sqrt`. -/
def FP32.sqrt (q : ℚ) : ℚ :=
  if q ≤ 0 then 0
  else
    let e := Int.fdiv (exp2Floor q) 2
    let S := q * pow2 (2 * (23 - e))
    let a := Int.toNat S.num
    let b := S.den
    let fl : Nat := isqrt (a * b) / b
    let m : Nat :=
      if (4 : ℚ) * S < (((2 * fl + 1 : Nat) : ℚ)) ^ 2 then fl
      else if (((2 * fl + 1 : Nat) : ℚ)) ^ 2 < 4 * S then fl + 1
      else if fl % 2 = 0 then fl else fl + 1
    (m : ℚ) * pow2 (e - 23)

/-- Binary32 addition: exact sum, then rounding. -/
def FP32.add (x y : ℚ) : ℚ := FP32.round (x + y)

/-- Binary32 division: exact quotient, then rounding. -/
def FP32.div (x y : ℚ) : ℚ := FP32.round (x / y)

/-- Wrap-around of release-mode `u16` arithmetic. -/
def wrap16 (n : Nat) : Nat := n % 65536

/-- Wrap-around of release-mode `i32` arithmetic. -/
def wrap32 (z : Int) : Int := (z + 2 ^ 31) % 2 ^ 32 - 2 ^ 31

/-! ## Statistic and Dispersion (src/src/core/statistic.rs) -/

/-- Four per-channel `u16` pixel counters (`Statistic` in
src/src/core/statistic.rs). Field values are the numbers the `u16`
fields hold, hence below 2 ^ 16 in every reachable state. -/
structure Statistic where
  ch1 : Nat
  ch2 : Nat
  ch3 : Nat
  ch4 : Nat
deriving DecidableEq, Repr

instance : Inhabited Statistic := ⟨⟨0, 0, 0, 0⟩⟩

/-- Four per-channel `f32` dispersion values (`Dispersion` in
src/src/core/statistic.rs), each represented by the exact rational the
`f32` bit pattern denotes. -/
structure Dispersion where
  ch1 : ℚ
  ch2 : ℚ
  ch3 : ℚ
  ch4 : ℚ
deriving DecidableEq, Repr

/-! ## compute_statistic (src/src/lib.rs lines 478-513) -/

/-- The `ndarray` mean of the four-element `u16` array
`[st.ch1, st.ch2, st.ch3, st.ch4]`: the `u16` sum (wrapping in release
mode) divided by 4 with truncation. This is what
`stats_arrays.iter().map(Array::mean)` produces per entry. -/
def u16mean (st : Statistic) : Nat :=
  wrap16 (st.ch1 + st.ch2 + st.ch3 + st.ch4) / 4

/-- The mutable `[f32; 4]` accumulator `tmp_slice` of
`compute_statistic`. -/
structure Acc4 where
  c1 : ℚ
  c2 : ℚ
  c3 : ℚ
  c4 : ℚ
deriving DecidableEq, Repr

/-- One accumulation step of `compute_math_expectation` at one index:
`tmp_slice[index] += ((carr - cmed).pow(2)) as f32` with `i32`
arithmetic (wrapping in release mode) and the `i32`-to-`f32` cast
rounding to nearest. -/
def ssdStep (cmed : Nat) (acc : ℚ) (carr : Nat) : ℚ :=
  FP32.add acc (FP32.round ((wrap32 (((carr : Int) - (cmed : Int)) ^ 2) : ℚ)))

/-- Model of `compute_math_expectation` (src/src/lib.rs lines 506-513):
for each `index` in `0..4` it reads `medians[index]` with `.unwrap()`,
so a medians list shorter than 4 is a panic (`none`). -/
def compute_math_expectation (tmp : Acc4) (array : Statistic)
    (medians : List Nat) : Option Acc4 :=
  match medians[0]?, medians[1]?, medians[2]?, medians[3]? with
  | some m0, some m1, some m2, some m3 =>
    some ⟨ssdStep m0 tmp.c1 array.ch1, ssdStep m1 tmp.c2 array.ch2,
      ssdStep m2 tmp.c3 array.ch3, ssdStep m3 tmp.c4 array.ch4⟩
  | _, _, _, _ => none

/-- Final packaging of `compute_statistic`: per channel,
`sqrt(ssd) / normalization` in `f32`. -/
def dispersionOfAcc (tmp : Acc4) (normalization : ℚ) : Dispersion :=
  ⟨FP32.div (FP32.sqrt tmp.c1) normalization,
   FP32.div (FP32.sqrt tmp.c2) normalization,
   FP32.div (FP32.sqrt tmp.c3) normalization,
   FP32.div (FP32.sqrt tmp.c4) normalization⟩

/-- Model of `compute_statistic` (src/src/lib.rs lines 478-503).
`stats_medians` maps each history entry to the `u16` mean of that
own four channels of the entry; the `for_each` over the entries is a
monadic fold because `compute_math_expectation` can panic (`none`)
when fewer than four medians exist. -/
def compute_statistic (history_stats : List Statistic)
    (normalization : ℚ) : Option Dispersion :=
  let stats_medians := history_stats.map u16mean
  (history_stats.foldlM
      (fun tmp st => compute_math_expectation tmp st stats_medians)
      ⟨0, 0, 0, 0⟩).map
    (fun tmp => dispersionOfAcc tmp normalization)

/-- Stated from the words of the specification (claim C1): for each
channel, the truncated unsigned-integer mean of THAT CHANNEL over the
N history entries, then the f32 accumulation of squared deviations
from it, then `sqrt(ssd) / normalization`. -/
def compute_statistic_specstated (stats : List Statistic)
    (normalization : ℚ) : Dispersion :=
  let n := stats.length
  let mean1 := (stats.map Statistic.ch1).sum / n
  let mean2 := (stats.map Statistic.ch2).sum / n
  let mean3 := (stats.map Statistic.ch3).sum / n
  let mean4 := (stats.map Statistic.ch4).sum / n
  dispersionOfAcc
    ⟨stats.foldl (fun a st => ssdStep mean1 a st.ch1) 0,
     stats.foldl (fun a st => ssdStep mean2 a st.ch2) 0,
     stats.foldl (fun a st => ssdStep mean3 a st.ch3) 0,
     stats.foldl (fun a st => ssdStep mean4 a st.ch4) 0⟩
    normalization

/-- What the code actually computes (amended claim C1): the "mean" used
for channel `j` is the `u16` mean of the four channels of the `j`-th
HISTORY ENTRY, the same for every entry. -/
def compute_statistic_rowmeans (stats : List Statistic)
    (normalization : ℚ) : Dispersion :=
  let m0 := u16mean (stats.getD 0 default)
  let m1 := u16mean (stats.getD 1 default)
  let m2 := u16mean (stats.getD 2 default)
  let m3 := u16mean (stats.getD 3 default)
  dispersionOfAcc
    ⟨stats.foldl (fun a st => ssdStep m0 a st.ch1) 0,
     stats.foldl (fun a st => ssdStep m1 a st.ch2) 0,
     stats.foldl (fun a st => ssdStep m2 a st.ch3) 0,
     stats.foldl (fun a st => ssdStep m3 a st.ch4) 0⟩
    normalization

/-- The five-entry history of the seed scenario in the specification
and in test/test_lib.rs (`test_chain_statistic`). -/
def fixtureStats : List Statistic :=
  [⟨354, 256, 129, 80⟩, ⟨879, 567, 280, 143⟩, ⟨657, 452, 456, 111⟩,
   ⟨200, 190, 160, 78⟩, ⟨123, 100, 98, 65⟩]

/-! ## Theorems for claims C1 and C7 -/

theorem expectation_step (medians : List Nat) (m0 m1 m2 m3 : Nat)
    (h0 : medians[0]? = some m0) (h1 : medians[1]? = some m1)
    (h2 : medians[2]? = some m2) (h3 : medians[3]? = some m3)
    (tmp : Acc4) (array : Statistic) :
    compute_math_expectation tmp array medians =
      some ⟨ssdStep m0 tmp.c1 array.ch1, ssdStep m1 tmp.c2 array.ch2,
        ssdStep m2 tmp.c3 array.ch3, ssdStep m3 tmp.c4 array.ch4⟩ := by
  simp [compute_math_expectation, h0, h1, h2, h3]

theorem foldlM_expectation (medians : List Nat) (m0 m1 m2 m3 : Nat)
    (h0 : medians[0]? = some m0) (h1 : medians[1]? = some m1)
    (h2 : medians[2]? = some m2) (h3 : medians[3]? = some m3) :
    ∀ (l : List Statistic) (acc : Acc4),
      l.foldlM (fun tmp st => compute_math_expectation tmp st medians) acc =
        some ⟨l.foldl (fun a st => ssdStep m0 a st.ch1) acc.c1,
              l.foldl (fun a st => ssdStep m1 a st.ch2) acc.c2,
              l.foldl (fun a st => ssdStep m2 a st.ch3) acc.c3,
              l.foldl (fun a st => ssdStep m3 a st.ch4) acc.c4⟩
  | [], acc => by simp
  | st :: l, acc => by
    rw [List.foldlM_cons, expectation_step medians m0 m1 m2 m3 h0 h1 h2 h3]
    show l.foldlM (fun tmp st => compute_math_expectation tmp st medians) _ = _
    rw [foldlM_expectation medians m0 m1 m2 m3 h0 h1 h2 h3 l _]
    simp

/-- Claim C1 (amended): `compute_statistic` does NOT use the per-channel
mean over the history; for channel `j` it uses the `u16` mean of the
four channels of the `j`-th history entry (so it panics for a history
of length 1, 2 or 3). On histories of length at least 4 it returns the
per-channel `sqrt(ssd) / normalization` with those transposed means. -/
theorem C1_rowmeans_dispersion (stats : List Statistic) (norm : ℚ)
    (h : 4 ≤ stats.length) :
    compute_statistic stats norm =
      some (compute_statistic_rowmeans stats norm) := by
  have e0 : stats[0]? = some stats[0] := List.getElem?_eq_getElem (by omega)
  have e1 : stats[1]? = some stats[1] := List.getElem?_eq_getElem (by omega)
  have e2 : stats[2]? = some stats[2] := List.getElem?_eq_getElem (by omega)
  have e3 : stats[3]? = some stats[3] := List.getElem?_eq_getElem (by omega)
  have h0 : (stats.map u16mean)[0]? = some (u16mean stats[0]) := by
    rw [List.getElem?_map, e0]; rfl
  have h1 : (stats.map u16mean)[1]? = some (u16mean stats[1]) := by
    rw [List.getElem?_map, e1]; rfl
  have h2 : (stats.map u16mean)[2]? = some (u16mean stats[2]) := by
    rw [List.getElem?_map, e2]; rfl
  have h3 : (stats.map u16mean)[3]? = some (u16mean stats[3]) := by
    rw [List.getElem?_map, e3]; rfl
  unfold compute_statistic compute_statistic_rowmeans
  dsimp only
  rw [foldlM_expectation (stats.map u16mean) _ _ _ _ h0 h1 h2 h3 stats ⟨0, 0, 0, 0⟩]
  simp [List.getD_eq_getElem?_getD, e0, e1, e2, e3]

unseal Rat.mul Rat.add Rat.sub Rat.inv in
/-- Claim C1 (counterexample): at the five-entry fixture history the
code result differs from the per-channel-mean dispersion the claim
describes, so the claim as stated is false. -/
theorem C1_counterexample :
    compute_statistic fixtureStats 10 ≠
      some (compute_statistic_specstated fixtureStats 10) := by decide

/-- Claim C1 (witness for the amended theorem at the fixture). -/
theorem C1_rowmeans_dispersion_witness :
    4 ≤ fixtureStats.length ∧
      compute_statistic fixtureStats 10 =
        some (compute_statistic_rowmeans fixtureStats 10) :=
  ⟨by decide, C1_rowmeans_dispersion fixtureStats 10 (by decide)⟩

unseal Rat.mul Rat.add Rat.sub Rat.inv in
/-- Claim C7: on the seed-scenario history with normalization 10 the
code returns exactly the `f32` values the spec (and the repository
test) expect: `83.06088`, `51.591084`, `52.43205`, `15.147937`, each
read as the nearest binary32 value to the decimal literal. -/
theorem C7_fixture_dispersion :
    compute_statistic fixtureStats 10 =
      some ⟨FP32.round (8306088 / 100000), FP32.round (51591084 / 1000000),
            FP32.round (5243205 / 100000), FP32.round (15147937 / 1000000)⟩ := by
  decide

/-! ## Colors and bounds (src/src/core/colors.rs, src/src/core/bounds.rs) -/

/-- One 4-channel pixel of a `CV_64FC4` matrix (an OpenCV `Scalar` of
four `f64` values; the values written are the exact integers 0 and 255,
so rationals represent them exactly). -/
structure Scalar4 where
  v1 : ℚ
  v2 : ℚ
  v3 : ℚ
  v4 : ℚ
deriving DecidableEq, Repr

def RED_COLOR : Scalar4 := ⟨0, 0, 255, 0⟩
def CYAN_COLOR : Scalar4 := ⟨255, 255, 0, 0⟩
def GREEN_COLOR : Scalar4 := ⟨0, 255, 0, 0⟩
def YELLOW_COLOR : Scalar4 := ⟨0, 255, 255, 0⟩
def BLACK_COLOR : Scalar4 := ⟨0, 0, 0, 0⟩

/-- The four `i32` classification thresholds
(`ColorBounds` in src/src/core/bounds.rs). -/
structure ColorBounds where
  channel_1 : Int
  channel_2 : Int
  channel_3 : Int
  channel_4 : Int
deriving DecidableEq, Repr

/-- `ColorBounds::get`: 1-based lookup with defensive 0 fallback. -/
def ColorBounds.get (b : ColorBounds) (index : Int) : Int :=
  if index = 1 then b.channel_1
  else if index = 2 then b.channel_2
  else if index = 3 then b.channel_3
  else if index = 4 then b.channel_4
  else 0

/-- `ColorBounds::default`: `{8, 9, 10, 11}`. -/
def ColorBounds.defaultBounds : ColorBounds := ⟨8, 9, 10, 11⟩

/-! ## CvlMat (src/src/core/mat.rs) -/

/-- Pixel payload of a matrix: either a single-channel 8-bit grid (the
grayscale, Canny and difference intermediates) or a 4-channel 64-bit
float grid (the vibration output), both row-major. -/
inductive PixelData where
  | gray (px : List (List Nat))
  | color (px : List (List Scalar4))
deriving DecidableEq, Repr

/-- Model of `CvlMat`: the wrapped image buffer plus the `Statistic`
side channel. The side channel is modelled from the spec: `CvlMat` in
src/src/core/mat.rs as shipped does not show the `set_statistic` /
`statistic` accessors that src/src/lib.rs and src/src/api/chain.rs
call; the spec (FrameView, section 4.5) fixes them as a mutable
`Option<Statistic>` that `vibration()` sets and `statistic()` reads. -/
structure CvlMat where
  pdata : PixelData
  stat : Option Statistic
deriving DecidableEq, Repr

/-- `CvlMat::default()`: an empty `Mat`, no statistic. -/
def CvlMat.defaultMat : CvlMat := ⟨.gray [], none⟩

instance : Inhabited CvlMat := ⟨CvlMat.defaultMat⟩

/-- `Mat::rows()` of the model: number of grid rows. -/
def CvlMat.rows (m : CvlMat) : Nat :=
  match m.pdata with
  | .gray g => g.length
  | .color g => g.length

/-- Number of columns of a row-major grid (length of the first row; an
OpenCV `Mat` is rectangular, so every row has this length). -/
def gridCols {α : Type} (g : List (List α)) : Nat := (g.headD []).length

/-- `Mat::cols()` of the model. -/
def CvlMat.cols (m : CvlMat) : Nat :=
  match m.pdata with
  | .gray g => gridCols g
  | .color g => gridCols g

/-- `Mat::channels()` of the model: 1 for 8-bit intermediates, 4 for
the `CV_64FC4` vibration output. -/
def CvlMat.channels (m : CvlMat) : Nat :=
  match m.pdata with
  | .gray _ => 1
  | .color _ => 4

/-! ## absdiff and the two N-way reductions (src/src/lib.rs) -/

/-- Componentwise shape equality of two row-major grids, which is what
`opencv::absdiff` requires of its arguments. -/
def sameShape {α β : Type} (a : List (List α)) (b : List (List β)) : Bool :=
  a.length = b.length &&
    (a.zip b).all fun rr => rr.1.length = rr.2.length

/-- Model of `opencv::absdiff` as `gen_diff_frame` unwraps it: the
pixelwise absolute difference of two equally-sized, equally-typed
frames; `none` models the panic of `.unwrap()` on a size or type
mismatch. The result carries no statistic (`CvlMat::from`). -/
def absdiffMat (a b : CvlMat) : Option CvlMat :=
  match a.pdata, b.pdata with
  | .gray ga, .gray gb =>
    if sameShape ga gb then
      some ⟨.gray (ga.zipWith (fun ra rb =>
        ra.zipWith (fun x y => max x y - min x y) rb) gb), none⟩
    else none
  | .color ca, .color cb =>
    if sameShape ca cb then
      some ⟨.color (ca.zipWith (fun ra rb => ra.zipWith (fun x y =>
        ⟨|x.v1 - y.v1|, |x.v2 - y.v2|, |x.v3 - y.v3|, |x.v4 - y.v4|⟩) rb) cb), none⟩
    else none
  | _, _ => none

/-- The pipeline error type (src/src/errors.rs). Payloads are the
`String` messages the variants carry. -/
inductive ProcessingError where
  | ComputeMedian
  | ComputeVibration (msg : String)
  | GenAbs
  | GenCanny (msg : String)
  | GenDifferences (msg : String)
  | GenDistribution (msg : String)
  | GenGrayScale (msg : String)
  | GenThreshold (msg : String)
  | GenSobel (msg : String)
  | ComputeStatistic
deriving DecidableEq, Repr

/-- The `thiserror` `Display` text of each variant (src/src/errors.rs);
the attribute strings contain no placeholder, so payloads do not appear
in the rendered message. -/
def errorMessage : ProcessingError → String
  | .ComputeMedian => "Caught error while computing frame median values."
  | .ComputeVibration _ => "Caught error while computing frame vibrating pixels."
  | .GenAbs => "Caught error while processing abs() for passed Mats."
  | .GenCanny _ => "Caught error while processing canny() for passed Mat."
  | .GenDifferences _ => "Caught error while processing difference for both Mats."
  | .GenDistribution _ => "Caught error while processing distribution for passed Mat."
  | .GenGrayScale _ => "Caught error while transforming Mat to grayscale."
  | .GenThreshold _ => "Caught error while transforming Mat to threshold."
  | .GenSobel _ => "Caught error while transforming Mat to sobel."
  | .ComputeStatistic => "Caught error while computing statistics."

/-- Recursive worker of `gen_abs_frame` (src/src/lib.rs lines 340-357),
with fuel equal to the list length of the first call: each recursive
step shortens the list by one, so the fuel is never exhausted and the
`fuel = 0` branch with two or more frames is unreachable. `none` models
the panic of `first().unwrap()` on an empty slice and of the
`.unwrap()` on every inner `gen_diff_frame` result. -/
def genAbsFrameGo : Nat → List CvlMat → Option (Except ProcessingError CvlMat)
  | _, [] => none
  | _, [a] => some (.ok a)
  | 0, _ => none
  | fuel + 1, frames =>
    match frames.getLast? with
    | none => none
    | some base =>
      match frames.dropLast.mapM (fun m => absdiffMat base m) with
      | none => none
      | some differences => genAbsFrameGo fuel differences

/-- Model of `gen_abs_frame`: recursive pairwise absolute difference
against the last element. -/
def gen_abs_frame (frame_images : List CvlMat) :
    Option (Except ProcessingError CvlMat) :=
  genAbsFrameGo frame_images.length frame_images

/-- Model of `gen_abs_frame_reduce` (src/src/lib.rs lines 381-392):
`iter().cloned().reduce(..)` is a left fold of the unwrapped pairwise
absolute difference starting from the first frame; the empty input
yields `Err(GenAbs)`; a failing inner `absdiff` is a panic (`none`). -/
def gen_abs_frame_reduce (frame_images : List CvlMat) :
    Option (Except ProcessingError CvlMat) :=
  match frame_images with
  | [] => some (.error .GenAbs)
  | f :: rest =>
    match rest.foldlM (fun acc m => absdiffMat acc m) f with
    | some r => some (.ok r)
    | none => none

/-! ## compute_vibration (src/src/lib.rs lines 414-475) -/

/-- Model of `find_non_zero` on a single-channel grid: the `(row, col)`
coordinates of the nonzero pixels in row-major scan order (OpenCV
points carry `x = col`, `y = row`; the loop destructures them back to
`(row, col)`, which is the order used here). -/
def nonZeroPoints (g : List (List Nat)) : List (Int × Int) :=
  (g.enum.map (fun rp =>
    rp.2.enum.filterMap (fun cp =>
      if cp.2 ≠ 0 then some ((rp.1 : Int), (cp.1 : Int)) else none))).flatten

/-- Validity of `Mat::roi` for the rectangle built by
`create_roi_mat` (src/src/lib.rs lines 185-190): `Rect::from_points`
normalizes the two corners `(col ± w, row ± w)` to a half-open
rectangle, and `Mat::roi` succeeds exactly when that rectangle lies
inside the matrix. -/
def roiValid (rows cols row col w : Int) : Bool :=
  0 ≤ min (col - w) (col + w) && max (col - w) (col + w) ≤ cols &&
    0 ≤ min (row - w) (row + w) && max (row - w) (row + w) ≤ rows

/-- Model of `count_non_zero` over the ROI: the number of nonzero
pixels with row in `[min(row ± w), max(row ± w))` and column in
`[min(col ± w), max(col ± w))`. -/
def roiCount (g : List (List Nat)) (row col w : Int) : Nat :=
  ((g.enum.map (fun rp =>
    if min (row - w) (row + w) ≤ (rp.1 : Int) ∧ (rp.1 : Int) < max (row - w) (row + w) then
      (rp.2.enum.filter (fun cp =>
        (min (col - w) (col + w) ≤ (cp.1 : Int) ∧ (cp.1 : Int) < max (col - w) (col + w)) ∧
          cp.2 ≠ 0)).length
    else 0)).sum)

/-- The classification ladder of `compute_vibration`: strict descending
match on the bounds, bumping the matching `u16` counter (wrapping in
release mode). The `neighbours` setting takes no part in it. -/
def classifyStep (bounds : ColorBounds) (k : Int) (st : Statistic) :
    Scalar4 × Statistic :=
  if k ≥ bounds.get 4 then (RED_COLOR, { st with ch4 := wrap16 (st.ch4 + 1) })
  else if k ≥ bounds.get 3 then (YELLOW_COLOR, { st with ch3 := wrap16 (st.ch3 + 1) })
  else if k ≥ bounds.get 2 then (CYAN_COLOR, { st with ch2 := wrap16 (st.ch2 + 1) })
  else if k ≥ bounds.get 1 then (GREEN_COLOR, { st with ch1 := wrap16 (st.ch1 + 1) })
  else (BLACK_COLOR, st)

/-- Zero-filled `CV_64FC4` grid (`create_zeros_mat`). -/
def zeros4 (rows cols : Nat) : List (List Scalar4) :=
  List.replicate rows (List.replicate cols BLACK_COLOR)

/-- Write one 4-channel pixel (`at_2d_mut` + `copy_from_slice`);
writing out of bounds is the skipped `continue` and leaves the grid
unchanged, which is also how `List.set` behaves. -/
def writeAt (grid : List (List Scalar4)) (r c : Nat) (s : Scalar4) :
    List (List Scalar4) :=
  grid.set r ((grid.getD r []).set c s)

/-- Loop body of `compute_vibration` for one nonzero point: skip the
first row and column, skip points whose ROI is invalid, classify by the
nonzero count (bumping the statistic even when the later write would be
skipped, exactly as in the source), then write the colour. -/
def processPoint (g : List (List Nat)) (window_size : Int)
    (color_bounds : ColorBounds)
    (acc : List (List Scalar4) × Statistic) (p : Int × Int) :
    List (List Scalar4) × Statistic :=
  let row := p.1
  let col := p.2
  if row = 0 ∨ col = 0 then acc
  else if roiValid (g.length : Int) (gridCols g : Int) row col window_size then
    let k := roiCount g row col window_size
    let cs := classifyStep color_bounds (k : Int) acc.2
    (writeAt acc.1 (Int.toNat row) (Int.toNat col) cs.1, cs.2)
  else acc

/-- Model of `compute_vibration` (src/src/lib.rs lines 414-475). A
4-channel input makes `find_non_zero(..).unwrap()` panic (`none`); the
allocation failure branch of `create_zeros_mat` cannot occur in the
model. The `neighbours` argument is bound but, as in the source, never
read. -/
def compute_vibration (image : CvlMat) (neighbours window_size : Int)
    (color_bounds : ColorBounds) : Option CvlMat :=
  match image.pdata with
  | .color _ => none
  | .gray g =>
    let start := zeros4 g.length (gridCols g)
    let out := (nonZeroPoints g).foldl
      (processPoint g window_size color_bounds) (start, ⟨0, 0, 0, 0⟩)
    some ⟨.color out.1, some out.2⟩

/-! ## ChainProcessing (src/src/api/chain.rs) -/

/-- `ProcessingSettings` (src/src/api/chain.rs lines 7-16). The two
floating settings hold the exact rationals their `f64` / `f32` bit
patterns denote. -/
structure ProcessingSettings where
  frames_count : Nat
  neighbours : Int
  window_size : Int
  is_reduced_abs : Bool
  canny_ksize : Int
  canny_sigma : ℚ
  canny_is_l2 : Bool
  normalization : ℚ
deriving DecidableEq, Repr

/-- `ProcessingSettings::default()`. -/
def ProcessingSettings.defaultSettings : ProcessingSettings :=
  ⟨15, 8, 2, true, 3, 1 / 20, true, 10⟩

instance {e a : Type} [DecidableEq e] [DecidableEq a] : DecidableEq (Except e a) :=
  fun x y =>
    match x, y with
    | .ok u, .ok v =>
      if h : u = v then .isTrue (by rw [h]) else .isFalse (by intro hc; cases hc; exact h rfl)
    | .error u, .error v =>
      if h : u = v then .isTrue (by rw [h]) else .isFalse (by intro hc; cases hc; exact h rfl)
    | .ok _, .error _ => .isFalse (by intro hc; cases hc)
    | .error _, .ok _ => .isFalse (by intro hc; cases hc)

/-- `ChainProcessing` (src/src/api/chain.rs lines 33-40): the result
slot, the two histories, the cached dispersion, the bounds and the
settings. `Rc` sharing of frames has no observable effect in the pure
model, so the frame history is a plain list. -/
structure ChainProcessing where
  result : Except ProcessingError CvlMat
  frames : List CvlMat
  statistics : List Statistic
  dispersion : Option Dispersion
  bounds : ColorBounds
  settings : ProcessingSettings
deriving DecidableEq, Repr

/-- `ChainProcessing::new` with the given settings. -/
def ChainProcessing.new (proc_settings : ProcessingSettings) : ChainProcessing :=
  ⟨.ok CvlMat.defaultMat, [], [], none, ColorBounds.defaultBounds, proc_settings⟩

/-- `ChainProcessing::run_chain`: put the frame into the slot. -/
def ChainProcessing.run_chain (c : ChainProcessing) (mat : CvlMat) : ChainProcessing :=
  { c with result := .ok mat }

/-- `ChainProcessing::set_frames`: extend the frame history. -/
def ChainProcessing.set_frames (c : ChainProcessing) (mat_frames : List CvlMat) :
    ChainProcessing :=
  { c with frames := c.frames ++ mat_frames }

/-- Model of `gen_grayscale_frame` (src/src/lib.rs lines 46-53): the
external `cvt_color` call is a parameter; its failure message is
wrapped in `GenGrayScale`. -/
def gen_grayscale_frame (cvtColor : CvlMat → Except String CvlMat)
    (frame : CvlMat) : Except ProcessingError CvlMat :=
  match cvtColor frame with
  | .error err => .error (.GenGrayScale err)
  | .ok m => .ok m

/-- Model of `gen_canny_frame_by_sigma` (src/src/lib.rs lines 140-155):
the external `canny` call at the sigma-derived thresholds is a
parameter; its failure message is wrapped in `GenCanny`. -/
def gen_canny_frame_by_sigma (cannyAt : CvlMat → Except String CvlMat)
    (frame : CvlMat) : Except ProcessingError CvlMat :=
  match cannyAt frame with
  | .error err => .error (.GenCanny err)
  | .ok m => .ok m

/-- `ChainProcessing::grayscale` (src/src/api/chain.rs lines 75-85). -/
def ChainProcessing.grayscale (cvtColor : CvlMat → Except String CvlMat)
    (c : ChainProcessing) : ChainProcessing :=
  { c with result :=
      match c.result with
      | .ok res => gen_grayscale_frame cvtColor res
      | .error err => .error (.GenGrayScale
          ("Failed exec grayscale chain function: " ++ errorMessage err)) }

/-- `ChainProcessing::canny` (src/src/api/chain.rs lines 87-102). -/
def ChainProcessing.canny (cannyAt : CvlMat → Except String CvlMat)
    (c : ChainProcessing) : ChainProcessing :=
  { c with result :=
      match c.result with
      | .ok res => gen_canny_frame_by_sigma cannyAt res
      | .error err => .error (.GenCanny
          ("Failed exec canny chain function: " ++ errorMessage err)) }

/-- `ChainProcessing::append_frame` (src/src/api/chain.rs lines
104-115): push a clone of the slot frame, then reset the slot to an
empty default frame. -/
def ChainProcessing.append_frame (c : ChainProcessing) : ChainProcessing :=
  match c.result with
  | .error _ => { c with result := .error .GenAbs }
  | .ok res =>
    { c with frames := c.frames ++ [res], result := .ok CvlMat.defaultMat }

/-- `ChainProcessing::reduce_abs` (src/src/api/chain.rs lines 117-133):
warm-up guard first (regardless of the slot), then on an `Ok` slot
remove the head of the history and fold; `frames.remove(0)` on an empty
history is a panic (`none`). -/
def ChainProcessing.reduce_abs (c : ChainProcessing) : Option ChainProcessing :=
  if c.frames.length < c.settings.frames_count then
    some { c with result := .error .GenAbs }
  else
    match c.result with
    | .error _ => some { c with result := .error .GenAbs }
    | .ok _ =>
      match c.frames with
      | [] => none
      | _ :: rest =>
        (gen_abs_frame_reduce rest).map fun r =>
          { c with frames := rest, result := r }

/-- `ChainProcessing::abs_recursively` (src/src/api/chain.rs lines
135-145): no warm-up guard; on an `Ok` slot remove the head and run the
recursive reduction. -/
def ChainProcessing.abs_recursively (c : ChainProcessing) : Option ChainProcessing :=
  match c.result with
  | .error _ => some { c with result := .error .GenAbs }
  | .ok _ =>
    match c.frames with
    | [] => none
    | _ :: rest =>
      (gen_abs_frame rest).map fun r =>
        { c with frames := rest, result := r }

/-- `ChainProcessing::vibrating` (src/src/api/chain.rs lines 147-173):
on an `Ok` slot run `compute_vibration`, read the attached statistic
(`.unwrap()`, a panic when absent), push it and evict the head when the
history exceeds `frames_count`. -/
def ChainProcessing.vibrating (c : ChainProcessing) : Option ChainProcessing :=
  match c.result with
  | .error _ => some { c with result := .error .GenAbs }
  | .ok result_frame =>
    match compute_vibration result_frame c.settings.neighbours
        c.settings.window_size c.bounds with
    | none => none
    | some mat =>
      match mat.stat with
      | none => none
      | some st =>
        let pushed := c.statistics ++ [st]
        let kept :=
          if pushed.length > c.settings.frames_count then pushed.tail else pushed
        some { c with statistics := kept, result := .ok mat }

/-- `ChainProcessing::statistic` (src/src/api/chain.rs lines 175-193):
on an `Ok` slot read the attached statistic (`.unwrap()`, a panic when
absent), push it WITHOUT eviction, and when the history has reached
`frames_count` compute and cache the dispersion (whose own panic for
short histories propagates). -/
def ChainProcessing.statistic (c : ChainProcessing) : Option ChainProcessing :=
  match c.result with
  | .error _ => some { c with result := .error .ComputeStatistic }
  | .ok res_mat =>
    match res_mat.stat with
    | none => none
    | some first_stat =>
      let old_stats := c.statistics ++ [first_stat]
      if old_stats.length ≥ c.settings.frames_count then
        match compute_statistic old_stats c.settings.normalization with
        | none => none
        | some d =>
          some { c with
            statistics := old_stats
            dispersion := some d
            result := .ok res_mat }
      else
        some { c with statistics := old_stats, result := .ok res_mat }

/-- `ChainProcessing::get_dispersion`. -/
def ChainProcessing.get_dispersion (c : ChainProcessing) : Option Dispersion :=
  c.dispersion

/-- `ChainProcessing::get_result` (src/src/api/chain.rs lines 199-207):
a clone of an `Ok` slot; every error is re-wrapped as
`ComputeVibration` with a message built from the literal
`"Failed exec canny: "` and the `Display` text of the original. -/
def ChainProcessing.get_result (c : ChainProcessing) :
    Except ProcessingError CvlMat :=
  match c.result with
  | .ok res => .ok res
  | .error err =>
    .error (.ComputeVibration ("Failed exec canny: " ++ errorMessage err))

/-! ## Theorems for claims C9, C5, C10, C4 -/

/-- Claim C9: both reductions are the identity on a one-element frame
list, and the fold reduction on the empty list yields `Err(Abs)`. -/
theorem C9_singleton_identity (a : CvlMat) :
    gen_abs_frame [a] = some (.ok a) ∧
      gen_abs_frame_reduce [a] = some (.ok a) ∧
      gen_abs_frame_reduce [] = some (.error .GenAbs) :=
  ⟨rfl, rfl, rfl⟩

/-- Claim C5: `compute_vibration` (the pipeline primitive of
src/src/lib.rs, the one that attaches the `Statistic`) returns the
same output, colored frame and statistic alike, for any two values of
the `neighbours` argument: the parameter is bound but never read, so
the classification is governed solely by the bounds ladder. -/
theorem C5_neighbours_ignored (image : CvlMat) (n1 n2 window_size : Int)
    (b : ColorBounds) :
    compute_vibration image n1 window_size b =
      compute_vibration image n2 window_size b := rfl

/-- Claim C10: whenever the slot holds any error, `get_result` returns
`Err(ComputeVibration(msg))` with `msg` equal to the literal
`"Failed exec canny: "` followed by the display text of the original
error; the original variant is never returned. -/
theorem C10_get_result_rewraps (c : ChainProcessing) (e : ProcessingError)
    (h : c.result = .error e) :
    c.get_result =
      .error (.ComputeVibration ("Failed exec canny: " ++ errorMessage e)) := by
  unfold ChainProcessing.get_result
  rw [h]

/-- Concrete chain states used by the closed witnesses below. -/
def chainErr : ChainProcessing :=
  { ChainProcessing.new ProcessingSettings.defaultSettings with
      result := .error .GenAbs }

/-- Claim C10 (witness): a slot holding the warm-up `Err(Abs)` is
reported as `ComputeVibration` with the `"Failed exec canny"` text. -/
theorem C10_get_result_rewraps_witness :
    chainErr.get_result =
      .error (.ComputeVibration ("Failed exec canny: " ++ errorMessage .GenAbs)) :=
  C10_get_result_rewraps chainErr .GenAbs rfl

/-- Claim C4: with any error in the slot, every stage of the chain
leaves an error in the slot (re-kinded as shown); only `run_chain`
writes an `Ok` over an `Err`. -/
theorem C4_errors_sticky (gs cn : CvlMat → Except String CvlMat)
    (c : ChainProcessing) (e : ProcessingError) (h : c.result = .error e) :
    (c.grayscale gs).result =
        .error (.GenGrayScale
          ("Failed exec grayscale chain function: " ++ errorMessage e)) ∧
      (c.canny cn).result =
        .error (.GenCanny
          ("Failed exec canny chain function: " ++ errorMessage e)) ∧
      c.append_frame = { c with result := .error .GenAbs } ∧
      c.reduce_abs = some { c with result := .error .GenAbs } ∧
      c.abs_recursively = some { c with result := .error .GenAbs } ∧
      c.vibrating = some { c with result := .error .GenAbs } ∧
      c.statistic = some { c with result := .error .ComputeStatistic } := by
  refine ⟨?_, ?_, ?_, ?_, ?_, ?_, ?_⟩
  · unfold ChainProcessing.grayscale; rw [h]
  · unfold ChainProcessing.canny; rw [h]
  · unfold ChainProcessing.append_frame; rw [h]
  · unfold ChainProcessing.reduce_abs; rw [h]; split <;> rfl
  · unfold ChainProcessing.abs_recursively; rw [h]
  · unfold ChainProcessing.vibrating; rw [h]
  · unfold ChainProcessing.statistic; rw [h]

/-- Claim C4 (witness): the stickiness equations at a concrete state
with `Err(Abs)` in the slot and identity oracles. -/
theorem C4_errors_sticky_witness :
    (chainErr.grayscale Except.ok).result =
        .error (.GenGrayScale
          ("Failed exec grayscale chain function: " ++ errorMessage .GenAbs)) ∧
      (chainErr.canny Except.ok).result =
        .error (.GenCanny
          ("Failed exec canny chain function: " ++ errorMessage .GenAbs)) ∧
      chainErr.append_frame = { chainErr with result := .error .GenAbs } ∧
      chainErr.reduce_abs = some { chainErr with result := .error .GenAbs } ∧
      chainErr.abs_recursively = some { chainErr with result := .error .GenAbs } ∧
      chainErr.vibrating = some { chainErr with result := .error .GenAbs } ∧
      chainErr.statistic = some { chainErr with result := .error .ComputeStatistic } :=
  C4_errors_sticky Except.ok Except.ok chainErr .GenAbs rfl

/-! ## Theorems for claims C6 and C3 -/

/-- Claim C6: during warm-up `reduce_abs` sets `Err(Abs)` and leaves
the history untouched; otherwise, on an `Ok` slot, it removes the head
of the history and puts the fold reduction of the remaining frames in
the slot, where the fold reduction is the left-to-right fold of the
pairwise absolute difference in insertion order. -/
theorem C6_reduce_abs_contract (c : ChainProcessing) :
    (c.frames.length < c.settings.frames_count →
        c.reduce_abs = some { c with result := .error .GenAbs }) ∧
      (∀ (m f : CvlMat) (rest : List CvlMat),
        c.settings.frames_count ≤ c.frames.length → c.result = .ok m →
          c.frames = f :: rest →
            c.reduce_abs = (gen_abs_frame_reduce rest).map fun r =>
              { c with frames := rest, result := r }) ∧
      (∀ (g : CvlMat) (gl : List CvlMat),
        gen_abs_frame_reduce (g :: gl) =
          (gl.foldlM (fun acc mm => absdiffMat acc mm) g).map Except.ok) := by
  refine ⟨?_, ?_, ?_⟩
  · intro h
    unfold ChainProcessing.reduce_abs
    rw [if_pos h]
  · intro m f rest hlen hres hframes
    unfold ChainProcessing.reduce_abs
    rw [if_neg (by omega), hres, hframes]
  · intro g gl
    unfold gen_abs_frame_reduce
    cases h : gl.foldlM (fun acc mm => absdiffMat acc mm) g <;> simp [h]

/-- Concrete frames used by the closed witnesses below. -/
def matA : CvlMat := ⟨.gray [[0, 1], [2, 3]], none⟩

def matB : CvlMat := ⟨.gray [[4, 5], [6, 9]], none⟩

/-- Chain state with a two-frame history and window length 2. -/
def chainFull : ChainProcessing :=
  { ChainProcessing.new
      { ProcessingSettings.defaultSettings with frames_count := 2 } with
      frames := [matA, matA, matB] }

/-- Claim C6 (witness): at a warmed-up three-frame state the head is
dropped and the slot becomes the fold of the remaining two frames; at
a one-frame state below the window length the slot becomes `Err(Abs)`
with the history kept. -/
theorem C6_reduce_abs_contract_witness :
    ({ chainFull with frames := [matA] } : ChainProcessing).reduce_abs =
        some { chainFull with frames := [matA], result := .error .GenAbs } ∧
      chainFull.reduce_abs =
        (gen_abs_frame_reduce [matA, matB]).map (fun r =>
          { chainFull with frames := [matA, matB], result := r }) ∧
      gen_abs_frame_reduce [matA, matB] =
        ([matB].foldlM (fun acc mm => absdiffMat acc mm) matA).map Except.ok :=
  ⟨(C6_reduce_abs_contract _).1 (by decide),
   (C6_reduce_abs_contract chainFull).2.1 CvlMat.defaultMat matA [matA, matB]
     (by decide) rfl rfl,
   (C6_reduce_abs_contract chainFull).2.2 matA [matB]⟩

/-- Claim C3 (counterexample): after 2 appends (history length 2, below
the default window length 15) with an `Ok` slot, `abs_recursively` does
NOT leave `Err(Abs)`: it drops the head and leaves `Ok` with the
remaining frame, so the claimed warm-up discipline does not hold for
`abs_recursively`. -/
theorem C3_counterexample :
    ({ ChainProcessing.new ProcessingSettings.defaultSettings with
        frames := [matA, matB] } : ChainProcessing).frames.length <
        ProcessingSettings.defaultSettings.frames_count ∧
      (({ ChainProcessing.new ProcessingSettings.defaultSettings with
          frames := [matA, matB] } : ChainProcessing).abs_recursively.map
        (fun c => c.result)) = some (.ok matB) := by
  refine ⟨by decide, ?_⟩
  rfl

/-- Claim C3 (amended): `reduce_abs` does follow the warm-up
discipline: for every history shorter than `frames_count` it leaves
`Err(Abs)`. `abs_recursively` has no warm-up check at all: on an `Ok`
slot it always drops the head and reduces the remaining frames (and it
panics on an empty history). -/
theorem C3_warmup_amended :
    (∀ c : ChainProcessing, c.frames.length < c.settings.frames_count →
        c.reduce_abs = some { c with result := .error .GenAbs }) ∧
      (∀ (c : ChainProcessing) (m f : CvlMat) (rest : List CvlMat),
        c.result = .ok m → c.frames = f :: rest →
          c.abs_recursively = (gen_abs_frame rest).map fun r =>
            { c with frames := rest, result := r }) ∧
      (∀ (c : ChainProcessing) (m : CvlMat),
        c.result = .ok m → c.frames = [] → c.abs_recursively = none) := by
  refine ⟨?_, ?_, ?_⟩
  · intro c h
    unfold ChainProcessing.reduce_abs
    rw [if_pos h]
  · intro c m f rest hres hframes
    unfold ChainProcessing.abs_recursively
    rw [hres, hframes]
  · intro c m hres hframes
    unfold ChainProcessing.abs_recursively
    rw [hres, hframes]

/-- Claim C3 (witness for the amended statement): concrete instances of
the three parts. -/
theorem C3_warmup_amended_witness :
    ({ chainFull with frames := [matA] } : ChainProcessing).reduce_abs =
        some { chainFull with frames := [matA], result := .error .GenAbs } ∧
      chainFull.abs_recursively =
        (gen_abs_frame [matA, matB]).map (fun r =>
          { chainFull with frames := [matA, matB], result := r }) ∧
      ({ chainFull with frames := [] } : ChainProcessing).abs_recursively = none :=
  ⟨C3_warmup_amended.1 _ (by decide),
   C3_warmup_amended.2.1 chainFull CvlMat.defaultMat matA [matA, matB] rfl rfl,
   C3_warmup_amended.2.2 { chainFull with frames := [] } CvlMat.defaultMat rfl rfl⟩

/-! ## Theorems for claim C2 -/

/-- Statistic value and frame used by the C2 counterexample. -/
def statZ : Statistic := ⟨0, 0, 0, 0⟩

/-- A frame carrying an attached statistic, as `vibrating` produces. -/
def matS : CvlMat := ⟨.gray [[0]], some statZ⟩

/-- Chain state whose statistic history is exactly full
(`frames_count = 4`) with an `Ok` slot carrying a statistic. -/
def chainC2 : ChainProcessing :=
  { ChainProcessing.new
      { ProcessingSettings.defaultSettings with frames_count := 4 } with
      statistics := [statZ, statZ, statZ, statZ], result := .ok matS }

unseal Rat.mul Rat.add Rat.sub Rat.inv in
/-- Claim C2 (counterexample): from a state satisfying the invariant
(history length 4 = `frames_count`), one `statistic()` call yields a
history of length 5 > `frames_count`: `statistic()` pushes without
evicting, so it does not preserve the invariant. -/
theorem C2_counterexample :
    chainC2.statistics.length ≤ chainC2.settings.frames_count ∧
      (chainC2.statistic.map fun c => c.statistics.length) = some 5 := by
  constructor
  · decide
  · decide

/-- Claim C2 (amended): `vibrating` (which evicts) preserves
`statistics.len ≤ frames_count`, and every stage other than
`statistic` leaves the statistic history untouched on an error slot or
entirely; but `statistic` on an `Ok` slot always grows the history by
exactly one without evicting, so it can push the length to
`frames_count + 1`. -/
theorem C2_history_bound :
    (∀ c c' : ChainProcessing, c.vibrating = some c' →
        c.statistics.length ≤ c.settings.frames_count →
          c'.statistics.length ≤ c.settings.frames_count) ∧
      (∀ (c c' : ChainProcessing) (m : CvlMat), c.result = .ok m →
        c.statistic = some c' →
          c'.statistics.length = c.statistics.length + 1) ∧
      (∀ (c : ChainProcessing) (e : ProcessingError), c.result = .error e →
        c.statistic = some { c with result := .error .ComputeStatistic }) ∧
      (∀ (gs : CvlMat → Except String CvlMat) (c : ChainProcessing),
        (c.grayscale gs).statistics = c.statistics) ∧
      (∀ (cn : CvlMat → Except String CvlMat) (c : ChainProcessing),
        (c.canny cn).statistics = c.statistics) ∧
      (∀ c : ChainProcessing, c.append_frame.statistics = c.statistics) ∧
      (∀ c c' : ChainProcessing, c.reduce_abs = some c' →
        c'.statistics = c.statistics) ∧
      (∀ c c' : ChainProcessing, c.abs_recursively = some c' →
        c'.statistics = c.statistics) ∧
      (∀ (c : ChainProcessing) (m : CvlMat),
        (c.run_chain m).statistics = c.statistics) := by
  refine ⟨?_, ?_, ?_, ?_, ?_, ?_, ?_, ?_, ?_⟩
  · intro c c' h hlen
    unfold ChainProcessing.vibrating at h
    match hres : c.result with
    | .error e =>
      rw [hres] at h
      cases h
      exact hlen
    | .ok f =>
      rw [hres] at h
      dsimp only at h
      match hv : compute_vibration f c.settings.neighbours
          c.settings.window_size c.bounds with
      | none => rw [hv] at h; cases h
      | some mat =>
        rw [hv] at h
        dsimp only at h
        match hs : mat.stat with
        | none => rw [hs] at h; cases h
        | some st =>
          rw [hs] at h
          dsimp only at h
          simp only [Option.some.injEq] at h
          subst h
          dsimp only
          split
          · simp only [List.length_tail, List.length_append, List.length_cons,
              List.length_nil]
            omega
          · rename_i hgt
            simp only [List.length_append, List.length_cons, List.length_nil] at hgt ⊢
            omega
  · intro c c' m hres h
    unfold ChainProcessing.statistic at h
    rw [hres] at h
    dsimp only at h
    match hs : m.stat with
    | none => rw [hs] at h; cases h
    | some st =>
      rw [hs] at h
      dsimp only at h
      split at h
      · match hc : compute_statistic (c.statistics ++ [st])
            c.settings.normalization with
        | none => rw [hc] at h; cases h
        | some d =>
          rw [hc] at h
          simp only [Option.some.injEq] at h
          subst h
          simp
      · simp only [Option.some.injEq] at h
        subst h
        simp
  · intro c e hres
    unfold ChainProcessing.statistic
    rw [hres]
  · intro gs c; rfl
  · intro cn c; rfl
  · intro c
    unfold ChainProcessing.append_frame
    cases c.result <;> rfl
  · intro c c' h
    unfold ChainProcessing.reduce_abs at h
    split at h
    · cases h; rfl
    · match hres : c.result with
      | .error e => rw [hres] at h; dsimp only at h; cases h; rfl
      | .ok m =>
        rw [hres] at h
        dsimp only at h
        match hf : c.frames with
        | [] => rw [hf] at h; cases h
        | a :: rest =>
          rw [hf] at h
          dsimp only at h
          match hg : gen_abs_frame_reduce rest with
          | none => rw [hg] at h; cases h
          | some r => rw [hg] at h; cases h; rfl
  · intro c c' h
    unfold ChainProcessing.abs_recursively at h
    match hres : c.result with
    | .error e => rw [hres] at h; dsimp only at h; cases h; rfl
    | .ok m =>
      rw [hres] at h
      dsimp only at h
      match hf : c.frames with
      | [] => rw [hf] at h; cases h
      | a :: rest =>
        rw [hf] at h
        dsimp only at h
        match hg : gen_abs_frame rest with
        | none => rw [hg] at h; cases h
        | some r => rw [hg] at h; cases h; rfl
  · intro c m; rfl

unseal Rat.mul Rat.add Rat.sub Rat.inv in
/-- Claim C2 (witness for the amended statement): concrete instances of
the `vibrating` preservation and the `statistic` growth. -/
theorem C2_history_bound_witness :
    (∀ c', chainC2.vibrating = some c' →
        chainC2.statistics.length ≤ chainC2.settings.frames_count →
          c'.statistics.length ≤ chainC2.settings.frames_count) ∧
      (chainC2.statistic.map fun c => c.statistics.length) =
        some (chainC2.statistics.length + 1) :=
  ⟨fun c' h => C2_history_bound.1 chainC2 c' h,
   by
    match hs : chainC2.statistic with
    | none => cases (by decide : chainC2.statistic ≠ none) hs
    | some c' =>
      have hlen := C2_history_bound.2.1 chainC2 c' matS rfl hs
      simp [hlen]⟩

/-! ## Theorems for claim C8 -/

/-- A pixel value the vibration output is allowed to contain. -/
def goodPixel (p : Scalar4) : Prop :=
  p = BLACK_COLOR ∨ p = GREEN_COLOR ∨ p = CYAN_COLOR ∨
    p = YELLOW_COLOR ∨ p = RED_COLOR

/-- Shape and colour invariant of the output grid: `R` rows, every row
of length `C`, every pixel one of the five colours. -/
def goodGrid (R C : Nat) (grid : List (List Scalar4)) : Prop :=
  grid.length = R ∧ (∀ rowv ∈ grid, rowv.length = C) ∧
    ∀ rowv ∈ grid, ∀ px ∈ rowv, goodPixel px

theorem mem_set_cases {α : Type} (b x : α) :
    ∀ (l : List α) (n : Nat), x ∈ l.set n b → (x = b ∧ n < l.length) ∨ x ∈ l
  | [], n, h => by simp at h
  | a :: l, 0, h => by
    rw [List.set_cons_zero] at h
    rcases List.mem_cons.mp h with h | h
    · exact .inl ⟨h, by simp⟩
    · exact .inr (List.mem_cons_of_mem _ h)
  | a :: l, n + 1, h => by
    rw [List.set_cons_succ] at h
    rcases List.mem_cons.mp h with h | h
    · exact .inr (by simp [h])
    · rcases mem_set_cases b x l n h with ⟨h1, h2⟩ | h1
      · exact .inl ⟨h1, by simpa using Nat.succ_lt_succ h2⟩
      · exact .inr (List.mem_cons_of_mem _ h1)

theorem classifyStep_good (bounds : ColorBounds) (k : Int) (st : Statistic) :
    goodPixel (classifyStep bounds k st).1 := by
  unfold classifyStep goodPixel
  split_ifs <;> simp

theorem zeros4_good (R C : Nat) : goodGrid R C (zeros4 R C) := by
  refine ⟨by simp [zeros4], ?_, ?_⟩
  · intro rowv hr
    rw [List.eq_of_mem_replicate hr]
    simp
  · intro rowv hr px hp
    rw [List.eq_of_mem_replicate hr] at hp
    rw [List.eq_of_mem_replicate hp]
    exact .inl rfl

theorem writeAt_good {R C : Nat} {grid : List (List Scalar4)} {s : Scalar4}
    (hg : goodGrid R C grid) (hs : goodPixel s) (r c : Nat) :
    goodGrid R C (writeAt grid r c s) := by
  obtain ⟨hlen, hrow, hpx⟩ := hg
  refine ⟨by simpa [writeAt] using hlen, ?_, ?_⟩
  · intro rowv hr
    rcases mem_set_cases _ _ _ _ hr with ⟨he, hb⟩ | hm
    · subst he
      have hget : grid.getD r [] = grid[r] := by
        rw [List.getD_eq_getElem?_getD, List.getElem?_eq_getElem hb]
        rfl
      rw [hget, List.length_set]
      exact hrow _ (List.getElem_mem hb)
    · exact hrow _ hm
  · intro rowv hr px hp
    rcases mem_set_cases _ _ _ _ hr with ⟨he, hb⟩ | hm
    · subst he
      rcases mem_set_cases _ _ _ _ hp with ⟨he2, _⟩ | hm2
      · subst he2; exact hs
      · have hget : grid.getD r [] = grid[r] := by
          rw [List.getD_eq_getElem?_getD, List.getElem?_eq_getElem hb]
          rfl
        rw [hget] at hm2
        exact hpx _ (List.getElem_mem hb) _ hm2
    · exact hpx _ hm _ hp

theorem processPoint_good {R C : Nat} (g : List (List Nat)) (w : Int)
    (bounds : ColorBounds) (acc : List (List Scalar4) × Statistic)
    (p : Int × Int) (hg : goodGrid R C acc.1) :
    goodGrid R C (processPoint g w bounds acc p).1 := by
  unfold processPoint
  dsimp only
  split_ifs with h1 h2
  · exact hg
  · exact writeAt_good hg (classifyStep_good bounds _ acc.2) _ _
  · exact hg

theorem foldl_processPoint_good {R C : Nat} (g : List (List Nat)) (w : Int)
    (bounds : ColorBounds) :
    ∀ (pts : List (Int × Int)) (acc : List (List Scalar4) × Statistic),
      goodGrid R C acc.1 →
        goodGrid R C (pts.foldl (processPoint g w bounds) acc).1
  | [], _, h => h
  | p :: pts, acc, h =>
    foldl_processPoint_good g w bounds pts _ (processPoint_good g w bounds acc p h)

/-- Claim C8: whenever the pipeline `compute_vibration` succeeds, the
output frame has 4 channels (the `CV_64FC4` payload), the same number
of rows and columns as the input, and every output pixel is one of
BLACK, GREEN, CYAN, YELLOW, RED. -/
theorem C8_vibration_shape (image : CvlMat) (neighbours window_size : Int)
    (b : ColorBounds) (out : CvlMat)
    (h : compute_vibration image neighbours window_size b = some out) :
    out.channels = 4 ∧
      ∃ grid, out.pdata = .color grid ∧ grid.length = image.rows ∧
        (∀ rowv ∈ grid, rowv.length = image.cols) ∧
        (∀ rowv ∈ grid, ∀ px ∈ rowv, goodPixel px) := by
  unfold compute_vibration at h
  match himg : image.pdata with
  | .color _ => rw [himg] at h; cases h
  | .gray g =>
    rw [himg] at h
    dsimp only at h
    have hgood : goodGrid g.length (gridCols g)
        (((nonZeroPoints g).foldl (processPoint g window_size b)
          (zeros4 g.length (gridCols g), ⟨0, 0, 0, 0⟩)).1) :=
      foldl_processPoint_good g window_size b (nonZeroPoints g) _
        (zeros4_good g.length (gridCols g))
    obtain ⟨hlen, hrow, hpx⟩ := hgood
    cases h
    refine ⟨rfl, _, rfl, ?_, ?_, hpx⟩
    · rw [hlen]
      unfold CvlMat.rows
      rw [himg]
    · intro rowv hr
      rw [hrow rowv hr]
      unfold CvlMat.cols
      rw [himg]

/-- Concrete vibration input for the C8 witness: a 3 by 3 frame with a
single interior nonzero pixel, window 1, and low bounds so the GREEN
rung fires. -/
def matV : CvlMat := ⟨.gray [[0, 0, 0], [0, 5, 0], [0, 0, 0]], none⟩

/-- Claim C8 (witness): the shape and colour facts at the concrete
input computed above. -/
theorem C8_vibration_shape_witness :
    ∃ out, compute_vibration matV 8 1 ⟨1, 2, 3, 4⟩ = some out ∧
      (out.channels = 4 ∧
        ∃ grid, out.pdata = .color grid ∧ grid.length = matV.rows ∧
          (∀ rowv ∈ grid, rowv.length = matV.cols) ∧
          (∀ rowv ∈ grid, ∀ px ∈ rowv, goodPixel px)) :=
  ⟨⟨.color [[BLACK_COLOR, BLACK_COLOR, BLACK_COLOR],
     [BLACK_COLOR, GREEN_COLOR, BLACK_COLOR],
     [BLACK_COLOR, BLACK_COLOR, BLACK_COLOR]], some ⟨1, 0, 0, 0⟩⟩,
   by decide,
   C8_vibration_shape matV 8 1 ⟨1, 2, 3, 4⟩ _ (by decide)⟩
